import Mathlib

/-!
Shallow embedding of the data-access layer and formatting utilities of a
financial dashboard application (query helpers over invoices, customers and
revenue, plus pure presentation utilities), together with proofs of the
specified properties.

The database is modelled as an explicit in-memory state (`Db`); each SQL
query is translated into a pure function over that state, and the fallible
connection is modelled by an `Except` value that each fetch function
receives as the settled outcome of its database call.  JavaScript numbers
are modelled as exact integers (`Int`), with the single special value
negative infinity (produced by `Math.max` on an empty argument list)
modelled by a dedicated constructor.
-/

/-! ## Formatting utilities (from app/lib/utils.ts) -/

-- Two-digit zero padding for the cents part of a currency string.
def padTo2 (n : Nat) : String :=
  if n < 10 then "0" ++ toString n else toString n

-- Three-digit zero padding for an inner thousands group.
def padTo3 (n : Nat) : String :=
  if n < 10 then "00" ++ toString n
  else if n < 100 then "0" ++ toString n
  else toString n

-- Decimal rendering of a natural number with comma thousands separators,
-- as produced by the en-US locale.  The first argument is recursion fuel;
-- `n` itself always suffices because the value shrinks by a factor of 1000.
def groupThousandsAux : Nat → Nat → String
  | 0, n => toString n
  | fuel + 1, n =>
    if n < 1000 then toString n
    else groupThousandsAux fuel (n / 1000) ++ "," ++ padTo3 (n % 1000)

def groupThousands (n : Nat) : String := groupThousandsAux n n

/-- Model of `formatCurrency` from app/lib/utils.ts: the integer minor-unit
amount is divided by 100 and rendered by `toLocaleString` with the en-US
locale and USD currency style, which produces a leading sign for negative
values, a dollar sign, comma-grouped dollars and exactly two cent digits. -/
def formatCurrency (amount : Int) : String :=
  (if amount < 0 then "-" else "") ++ "$" ++
    groupThousands (amount.natAbs / 100) ++ "." ++ padTo2 (amount.natAbs % 100)

/-- A JavaScript number arising in `generateYAxis`: either an ordinary
integer or the value negative infinity that `Math.max` returns when it is
spread over an empty array. -/
inductive JsNumber where
  | negInf : JsNumber
  | fin : Int → JsNumber
deriving DecidableEq, Repr

-- One step of the fold performed by `Math.max` over its argument list.
def jsMaxStep : JsNumber → Int → JsNumber
  | .negInf, n => .fin n
  | .fin m, n => .fin (max m n)

-- `Math.max(...l)`: negative infinity on an empty list, the maximum element
-- otherwise.
def jsMaxList (l : List Int) : JsNumber := l.foldl jsMaxStep .negInf

-- `Math.ceil (n / d)` for integer operands and positive `d`, written with
-- the floor division of `Int` (the `/` of `Int` rounds toward negative
-- infinity on these operands via `Int.ediv`).
def jsCeilDiv (n d : Int) : Int := -((-n) / d)

-- `Math.ceil (highestRecord / 1000) * 1000` lifted to the possibly
-- infinite maximum: negative infinity is preserved by division, ceiling
-- and multiplication.
def generateYAxisTop : JsNumber → JsNumber
  | .negInf => .negInf
  | .fin n => .fin (jsCeilDiv n 1000 * 1000)

-- The label loop `for (let i = topLabel; i >= 0; i -= 1000)`, pushing
-- the string interpolation of `i / 1000` between a dollar sign and "K".
-- The first argument is recursion fuel; the loop runs at most
-- `i.toNat / 1000 + 1` times, so that much fuel is exact.
def yAxisLoopAux : Nat → Int → List String
  | 0, _ => []
  | fuel + 1, i =>
    if 0 ≤ i then ("$" ++ toString (i / 1000) ++ "K") :: yAxisLoopAux fuel (i - 1000)
    else []

def yAxisLoop (i : Int) : List String := yAxisLoopAux (i.toNat / 1000 + 1) i

/-- A revenue row: month label and revenue amount. -/
structure Revenue where
  month : String
  revenue : Int
deriving DecidableEq, Repr

/-- Model of `generateYAxis` from app/lib/utils.ts: the highest revenue
value is rounded up to the nearest thousand and labels are generated from
that top value down to zero in steps of 1000.  The result is the pair of
the label list and the top label. -/
def generateYAxis (revenue : List Revenue) : List String × JsNumber :=
  match generateYAxisTop (jsMaxList (revenue.map (fun r => r.revenue))) with
  | .negInf => ([], .negInf)
  | .fin t => (yAxisLoop t, .fin t)

/-- An entry of the pagination display: a page number or the elision
marker "...". -/
inductive PageItem where
  | num : Int → PageItem
  | dots : PageItem
deriving DecidableEq, Repr

/-- Model of `generatePagination` from app/lib/utils.ts. -/
def generatePagination (currentPage totalPages : Int) : List PageItem :=
  if totalPages ≤ 7 then
    (List.range totalPages.toNat).map (fun i => PageItem.num ((i : Int) + 1))
  else if currentPage ≤ 3 then
    [.num 1, .num 2, .num 3, .dots, .num (totalPages - 1), .num totalPages]
  else if totalPages - 2 ≤ currentPage then
    [.num 1, .num 2, .dots, .num (totalPages - 2), .num (totalPages - 1), .num totalPages]
  else
    [.num 1, .dots, .num (currentPage - 1), .num currentPage,
     .num (currentPage + 1), .dots, .num totalPages]

/-! ## Relational data model -/

/-- A row of the customers table. -/
structure Customer where
  id : String
  name : String
  email : String
  image_url : String
deriving DecidableEq, Repr

/-- A row of the invoices table; `amount` is in minor currency units and
`date` is an ISO formatted date string (so that the lexicographic string
order coincides with chronological order). -/
structure Invoice where
  id : String
  customer_id : String
  amount : Int
  date : String
  status : String
deriving DecidableEq, Repr

/-- The database state visible to the query helpers. -/
structure Db where
  customers : List Customer
  invoices : List Invoice
  revenue : List Revenue
deriving DecidableEq, Repr

-- Substring test on character lists: true when the first list occurs
-- contiguously inside the second.
def likeSub (pat : List Char) : List Char → Bool
  | [] => pat.isEmpty
  | c :: rest => pat.isPrefixOf (c :: rest) || likeSub pat rest

-- `field ILIKE %query%`: case-insensitive substring containment, the
-- pattern having been wrapped in percent wildcards by the caller.  Case
-- folding is modelled by lowering every character of both sides.
def ilike (query field : String) : Bool :=
  likeSub (query.toList.map Char.toLower) (field.toList.map Char.toLower)

/-! ## Query helpers (from the data-access module) -/

/-- Model of `fetchRevenue`: `SELECT * FROM revenue`, with any database
failure translated into the fixed domain error. -/
def fetchRevenue {ε : Type} (conn : Except ε Db) : Except String (List Revenue) :=
  match conn with
  | .ok db => .ok db.revenue
  | .error _ => .error "Failed to fetch revenue data."

-- The inner join `FROM invoices JOIN customers ON invoices.customer_id =
-- customers.id`: each invoice paired with every customer whose id matches.
def invoiceJoinRows (db : Db) : List (Invoice × Customer) :=
  db.invoices.flatMap
    (fun inv => (db.customers.filter (fun c => c.id == inv.customer_id)).map
      (fun c => (inv, c)))

/-- A row of the latest-invoices result after the amount has been
formatted. -/
structure LatestInvoice where
  amount : String
  name : String
  image_url : String
  email : String
  id : String
deriving DecidableEq, Repr

-- Boolean date comparison used to model `ORDER BY invoices.date DESC`.
def invoiceDateDesc (a b : Invoice × Customer) : Bool :=
  decide (b.1.date ≤ a.1.date)

/-- Model of `fetchLatestInvoices`: join, order by date descending, limit
5, then format each amount. -/
def fetchLatestInvoices {ε : Type} (conn : Except ε Db) :
    Except String (List LatestInvoice) :=
  match conn with
  | .ok db =>
    .ok ((((invoiceJoinRows db).mergeSort invoiceDateDesc).take 5).map
      (fun r => ⟨formatCurrency r.1.amount, r.2.name, r.2.image_url, r.2.email, r.1.id⟩))
  | .error _ => .error "Failed to fetch the latest invoices."

/-- The dashboard card aggregates. -/
structure CardData where
  numberOfCustomers : Nat
  numberOfInvoices : Nat
  totalPaidInvoices : String
  totalPendingInvoices : String
deriving DecidableEq, Repr

/-- Model of `fetchCardData`.  The three arguments are the settled
outcomes of the three independent aggregate queries (invoice count,
customer count, and the paid and pending sums) issued through
`Promise.all`; if any of them was rejected the whole operation fails with
the single fixed domain error, otherwise the aggregates are combined. -/
def fetchCardData {ε : Type} (invoiceCount customerCount : Except ε Nat)
    (statusSums : Except ε (Int × Int)) : Except String CardData :=
  match invoiceCount, customerCount, statusSums with
  | .ok ni, .ok nc, .ok (paid, pending) =>
    .ok ⟨nc, ni, formatCurrency paid, formatCurrency pending⟩
  | .error _, _, _ => .error "Failed to fetch card data."
  | _, .error _, _ => .error "Failed to fetch card data."
  | _, _, .error _ => .error "Failed to fetch card data."

/-- The fixed page size of the paginated listings. -/
def ITEMS_PER_PAGE : Nat := 6

/-- A row of the filtered invoices listing. -/
structure InvoicesTable where
  id : String
  amount : Int
  date : String
  status : String
  name : String
  email : String
  image_url : String
deriving DecidableEq, Repr

-- The WHERE clause of `fetchFilteredInvoices`: case-insensitive substring
-- match of the query against name, email, stringified amount, stringified
-- date and status, combined with OR.
def invoicesWhere (query : String) (r : Invoice × Customer) : Bool :=
  ilike query r.2.name || ilike query r.2.email ||
  ilike query (toString r.1.amount) || ilike query r.1.date ||
  ilike query r.1.status

-- The SELECT projection of `fetchFilteredInvoices`.
def invoicesSelect (r : Invoice × Customer) : InvoicesTable :=
  ⟨r.1.id, r.1.amount, r.1.date, r.1.status, r.2.name, r.2.email, r.2.image_url⟩

-- Comparison used to model `ORDER BY invoices.date DESC` on result rows.
def tableDateDesc (a b : InvoicesTable) : Bool :=
  decide (b.date ≤ a.date)

-- The matching rows of the filtered invoices query, in the order produced
-- by `ORDER BY invoices.date DESC`, before LIMIT and OFFSET are applied.
def invoicesMatchingSorted (db : Db) (query : String) : List InvoicesTable :=
  (((invoiceJoinRows db).filter (invoicesWhere query)).map invoicesSelect).mergeSort
    tableDateDesc

/-- The offset computed by `fetchFilteredInvoices`:
`(currentPage - 1) * ITEMS_PER_PAGE`, on an arbitrary integer page. -/
def fetchFilteredInvoicesOffset (currentPage : Int) : Int :=
  (currentPage - 1) * (ITEMS_PER_PAGE : Int)

/-- The row list produced by the `fetchFilteredInvoices` query:
`LIMIT ITEMS_PER_PAGE OFFSET offset` applied to the sorted matching rows.
The clamp `Int.toNat` never engages on the pages the SQL layer accepts,
since a negative OFFSET is rejected by the database. -/
def fetchFilteredInvoicesRows (db : Db) (query : String) (currentPage : Int) :
    List InvoicesTable :=
  ((invoicesMatchingSorted db query).drop
    (fetchFilteredInvoicesOffset currentPage).toNat).take ITEMS_PER_PAGE

/-- Model of `fetchFilteredInvoices` including the error translation at
the function boundary. -/
def fetchFilteredInvoices {ε : Type} (conn : Except ε Db) (query : String)
    (currentPage : Int) : Except String (List InvoicesTable) :=
  match conn with
  | .ok db => .ok (fetchFilteredInvoicesRows db query currentPage)
  | .error _ => .error "Failed to fetch invoices."

-- The WHERE clause of `fetchInvoicesPages`, a textual duplicate of the one
-- in `fetchFilteredInvoices`, mirroring the duplicated SQL in the source.
def invoicesPagesWhere (query : String) (r : Invoice × Customer) : Bool :=
  ilike query r.2.name || ilike query r.2.email ||
  ilike query (toString r.1.amount) || ilike query r.1.date ||
  ilike query r.1.status

-- The `SELECT COUNT(*)` of `fetchInvoicesPages` over the same join.
def fetchInvoicesPagesCount (db : Db) (query : String) : Nat :=
  ((invoiceJoinRows db).filter (invoicesPagesWhere query)).length

/-- The page total computed by `fetchInvoicesPages`:
`Math.ceil (count / ITEMS_PER_PAGE)`. -/
def fetchInvoicesPagesNum (db : Db) (query : String) : Int :=
  jsCeilDiv (fetchInvoicesPagesCount db query) (ITEMS_PER_PAGE : Int)

/-- Model of `fetchInvoicesPages` including the error translation. -/
def fetchInvoicesPages {ε : Type} (conn : Except ε Db) (query : String) :
    Except String Int :=
  match conn with
  | .ok db => .ok (fetchInvoicesPagesNum db query)
  | .error _ => .error "Failed to fetch total number of invoices."

/-- A row of the invoice edit form; the amount has been converted from
cents to dollars by an exact division, modelling the JavaScript division
`invoice.amount / 100`. -/
structure InvoiceForm where
  id : String
  customer_id : String
  amount : ℚ
  status : String
deriving DecidableEq, Repr

-- The rows returned by the `fetchInvoiceById` query after the mapping
-- step that converts amounts from cents to dollars.
def fetchInvoiceByIdRows (db : Db) (id : String) : List InvoiceForm :=
  (db.invoices.filter (fun inv => inv.id == id)).map
    (fun inv => ⟨inv.id, inv.customer_id, (inv.amount : ℚ) / 100, inv.status⟩)

/-- Model of `fetchInvoiceById`: the function returns `invoice[0]`, which
is undefined (here `none`) when no row matched, and translates a database
failure into the fixed domain error. -/
def fetchInvoiceById {ε : Type} (conn : Except ε Db) (id : String) :
    Except String (Option InvoiceForm) :=
  match conn with
  | .ok db => .ok (fetchInvoiceByIdRows db id).head?
  | .error _ => .error "Failed to fetch invoice."

-- Comparison used to model `ORDER BY name ASC` on customers.
def customerNameAsc (a b : Customer) : Bool :=
  decide (a.name ≤ b.name)

/-- Model of `fetchCustomers`: id and name of every customer, ordered by
name ascending. -/
def fetchCustomers {ε : Type} (conn : Except ε Db) :
    Except String (List (String × String)) :=
  match conn with
  | .ok db => .ok ((db.customers.mergeSort customerNameAsc).map (fun c => (c.id, c.name)))
  | .error _ => .error "Failed to fetch all customers."

/-- A raw row of the filtered customers query, before currency
formatting. -/
structure CustomersTable where
  id : String
  name : String
  email : String
  image_url : String
  total_invoices : Nat
  total_pending : Int
  total_paid : Int
deriving DecidableEq, Repr

/-- A row of the filtered customers listing after the formatting map. -/
structure CustomersTableFormatted where
  id : String
  name : String
  email : String
  image_url : String
  total_invoices : Nat
  total_pending : String
  total_paid : String
deriving DecidableEq, Repr

-- The WHERE clause of `fetchFilteredCustomers`: the query matched against
-- name or email.
def customersWhere (query : String) (c : Customer) : Bool :=
  ilike query c.name || ilike query c.email

-- The grouped aggregation of the left join `customers LEFT JOIN invoices`:
-- for one customer, the invoice count and the conditional sums of pending
-- and paid amounts over exactly the invoices of that customer.  A customer
-- with no invoices yields count 0 and both sums 0, as the SQL conditional
-- aggregation does on the single all-NULL joined row.
def customersAggRow (db : Db) (c : Customer) : CustomersTable :=
  ⟨c.id, c.name, c.email, c.image_url,
   (db.invoices.filter (fun inv => inv.customer_id == c.id)).length,
   (((db.invoices.filter (fun inv => inv.customer_id == c.id)).map
     (fun inv => if inv.status == "pending" then inv.amount else 0)).sum),
   (((db.invoices.filter (fun inv => inv.customer_id == c.id)).map
     (fun inv => if inv.status == "paid" then inv.amount else 0)).sum)⟩

-- The result set of the filtered customers SQL query, ordered by name.
def fetchFilteredCustomersData (db : Db) (query : String) : List CustomersTable :=
  ((db.customers.filter (customersWhere query)).mergeSort customerNameAsc).map
    (customersAggRow db)

-- The formatting map applied after the query returns.
def formatCustomerRow (r : CustomersTable) : CustomersTableFormatted :=
  ⟨r.id, r.name, r.email, r.image_url, r.total_invoices,
   formatCurrency r.total_pending, formatCurrency r.total_paid⟩

-- The rows returned by `fetchFilteredCustomers` on success.
def fetchFilteredCustomersRows (db : Db) (query : String) :
    List CustomersTableFormatted :=
  (fetchFilteredCustomersData db query).map formatCustomerRow

/-- Model of `fetchFilteredCustomers` including the error translation. -/
def fetchFilteredCustomers {ε : Type} (conn : Except ε Db) (query : String) :
    Except String (List CustomersTableFormatted) :=
  match conn with
  | .ok db => .ok (fetchFilteredCustomersRows db query)
  | .error _ => .error "Failed to fetch customer table."

/-- A small concrete database used to instantiate theorems with
hypotheses: two customers, of which the second has no invoices. -/
def dbSample : Db :=
  ⟨[⟨"c1", "Alice", "alice", "img1"⟩, ⟨"c2", "Bob", "bob", "img2"⟩],
   [⟨"i1", "c1", 100, "2024-01-01", "paid"⟩,
    ⟨"i2", "c1", 250, "2024-02-01", "pending"⟩],
   []⟩

/-! ## Helper lemmas -/

-- The integer ceiling division agrees with the rational ceiling.
theorem jsCeilDiv_six (n : Nat) : jsCeilDiv (n : Int) 6 = ⌈(n : ℚ) / 6⌉ := by
  have h1 : (n : Int) ≤ 6 * (-((-(n : Int)) / 6)) := by omega
  have h2 : 6 * (-((-(n : Int)) / 6)) < (n : Int) + 6 := by omega
  unfold jsCeilDiv
  symm
  rw [Int.ceil_eq_iff]
  have h1q : (n : ℚ) ≤ 6 * ((-((-(n : Int)) / 6) : Int) : ℚ) := by exact_mod_cast h1
  have h2q : 6 * ((-((-(n : Int)) / 6) : Int) : ℚ) < (n : ℚ) + 6 := by exact_mod_cast h2
  constructor
  · rw [lt_div_iff₀ (by norm_num : (0 : ℚ) < 6)]
    push_cast at h2q ⊢
    linarith
  · rw [div_le_iff₀ (by norm_num : (0 : ℚ) < 6)]
    push_cast at h1q ⊢
    linarith

-- The descending date order used for invoices is transitive and total in
-- the Boolean sense required by `mergeSort`.
theorem tableDateDesc_trans (a b c : InvoicesTable) :
    tableDateDesc a b = true → tableDateDesc b c = true → tableDateDesc a c = true := by
  unfold tableDateDesc
  intro h1 h2
  exact decide_eq_true (le_trans (of_decide_eq_true h2) (of_decide_eq_true h1))

theorem tableDateDesc_total (a b : InvoicesTable) :
    (tableDateDesc a b || tableDateDesc b a) = true := by
  unfold tableDateDesc
  rcases le_total a.date b.date with h | h
  · simp [h]
  · simp [h]

-- The sorted matching rows are pairwise in weakly descending date order.
theorem invoicesMatchingSorted_pairwise (db : Db) (q : String) :
    (invoicesMatchingSorted db q).Pairwise (fun a b => b.date ≤ a.date) := by
  have h := List.sorted_mergeSort tableDateDesc_trans tableDateDesc_total
    (((invoiceJoinRows db).filter (invoicesWhere q)).map invoicesSelect)
  exact h.imp (fun hab => of_decide_eq_true hab)

/-! ## Claim theorems -/

/-- C3: for every currentPage and totalPages, `generatePagination` returns
all pages when totalPages is at most 7; the first three pages, an elision
and the last two pages when totalPages exceeds 7 and currentPage is at
most 3; the first two pages, an elision and the last three pages when
totalPages exceeds 7 and currentPage is at least totalPages - 2; and the
first page, an elision, the three pages around currentPage, an elision and
the last page otherwise.  In particular `generatePagination 5 10` is
`[1, "...", 4, 5, 6, "...", 10]`. -/
theorem generatePagination_cases :
    (∀ (cp tp : Int), tp ≤ 7 →
      generatePagination cp tp =
        (List.range tp.toNat).map (fun i => PageItem.num ((i : Int) + 1))) ∧
    (∀ (cp tp : Int), 7 < tp → cp ≤ 3 →
      generatePagination cp tp =
        [.num 1, .num 2, .num 3, .dots, .num (tp - 1), .num tp]) ∧
    (∀ (cp tp : Int), 7 < tp → tp - 2 ≤ cp →
      generatePagination cp tp =
        [.num 1, .num 2, .dots, .num (tp - 2), .num (tp - 1), .num tp]) ∧
    (∀ (cp tp : Int), 7 < tp → 3 < cp → cp < tp - 2 →
      generatePagination cp tp =
        [.num 1, .dots, .num (cp - 1), .num cp, .num (cp + 1), .dots, .num tp]) ∧
    generatePagination 5 10 =
      [.num 1, .dots, .num 4, .num 5, .num 6, .dots, .num 10] := by
  refine ⟨?_, ?_, ?_, ?_, by decide⟩
  · intro cp tp h
    unfold generatePagination
    rw [if_pos h]
  · intro cp tp h1 h2
    unfold generatePagination
    rw [if_neg (by omega), if_pos h2]
  · intro cp tp h1 h2
    unfold generatePagination
    rw [if_neg (by omega), if_neg (by omega), if_pos h2]
  · intro cp tp h1 h2 h3
    unfold generatePagination
    rw [if_neg (by omega), if_neg (by omega), if_neg (by omega)]

/-- Witness for C3: the theorem applied at the four concrete example
inputs of the specification. -/
theorem generatePagination_cases_witness :
    generatePagination 1 5 =
      (List.range (5 : Int).toNat).map (fun i => PageItem.num ((i : Int) + 1)) ∧
    generatePagination 2 10 =
      [.num 1, .num 2, .num 3, .dots, .num 9, .num 10] ∧
    generatePagination 9 10 =
      [.num 1, .num 2, .dots, .num 8, .num 9, .num 10] ∧
    generatePagination 5 10 =
      [.num 1, .dots, .num 4, .num 5, .num 6, .dots, .num 10] :=
  ⟨generatePagination_cases.1 1 5 (by decide),
   generatePagination_cases.2.1 2 10 (by decide) (by decide),
   generatePagination_cases.2.2.1 9 10 (by decide) (by decide),
   generatePagination_cases.2.2.2.1 5 10 (by decide) (by decide) (by decide)⟩

/-- C5 counterexample: the claim quantifies over every value of
currentPage the function accepts, but the function performs no validation
and accepts 0, where the computed offset is -6, which is negative.  This
refutes the claimed invariant at the concrete input currentPage = 0. -/
theorem fetchFilteredInvoicesOffset_counterexample :
    fetchFilteredInvoicesOffset 0 = -6 ∧ fetchFilteredInvoicesOffset 0 < 0 := by
  decide

/-- C5 amended: for every currentPage greater than or equal to 1, the
offset supplied to the database query equals (currentPage - 1) * 6, is
non-negative, and is a multiple of the page size 6. -/
theorem fetchFilteredInvoicesOffset_amended (page : Int) (h : 1 ≤ page) :
    fetchFilteredInvoicesOffset page = (page - 1) * 6 ∧
    0 ≤ fetchFilteredInvoicesOffset page ∧
    (6 : Int) ∣ fetchFilteredInvoicesOffset page := by
  unfold fetchFilteredInvoicesOffset ITEMS_PER_PAGE
  exact ⟨rfl, by omega, ⟨page - 1, by ring⟩⟩

/-- Witness for the amended C5 at currentPage = 4. -/
theorem fetchFilteredInvoicesOffset_amended_witness :
    1 ≤ (4 : Int) ∧
    (fetchFilteredInvoicesOffset 4 = (4 - 1) * 6 ∧
     0 ≤ fetchFilteredInvoicesOffset 4 ∧
     (6 : Int) ∣ fetchFilteredInvoicesOffset 4) :=
  ⟨by decide, fetchFilteredInvoicesOffset_amended 4 (by decide)⟩

/-- C9: on the empty revenue list the label loop never runs, and the
function returns an empty label list together with the negative infinity
that `Math.max` of no values produces, which is not an ordinary numeric
axis maximum; no error is raised. -/
theorem generateYAxis_empty :
    generateYAxis [] = ([], JsNumber.negInf) ∧
    ∀ n : Int, JsNumber.negInf ≠ JsNumber.fin n :=
  ⟨rfl, fun _ h => JsNumber.noConfusion h⟩

/-- C1: for every database state, query string and page number at least 1,
`fetchFilteredInvoices` returns at most ITEMS_PER_PAGE (6) rows, the rows
are pairwise in weakly descending date order, and the returned rows are
exactly the window of the sorted matching rows starting at offset
(page - 1) * 6. -/
theorem fetchFilteredInvoices_page_window (db : Db) (q : String) (page : Int)
    (h : 1 ≤ page) :
    (fetchFilteredInvoicesRows db q page).length ≤ ITEMS_PER_PAGE ∧
    (fetchFilteredInvoicesRows db q page).Pairwise (fun a b => b.date ≤ a.date) ∧
    fetchFilteredInvoicesRows db q page =
      ((invoicesMatchingSorted db q).drop ((page - 1).toNat * ITEMS_PER_PAGE)).take
        ITEMS_PER_PAGE := by
  have hoff : (fetchFilteredInvoicesOffset page).toNat =
      (page - 1).toNat * ITEMS_PER_PAGE := by
    unfold fetchFilteredInvoicesOffset ITEMS_PER_PAGE
    omega
  refine ⟨?_, ?_, ?_⟩
  · unfold fetchFilteredInvoicesRows
    rw [List.length_take]
    exact min_le_left _ _
  · unfold fetchFilteredInvoicesRows
    exact List.Pairwise.sublist ((List.take_sublist _ _).trans (List.drop_sublist _ _))
      (invoicesMatchingSorted_pairwise db q)
  · unfold fetchFilteredInvoicesRows
    rw [hoff]

/-- Witness for C1: the theorem applied to the sample database on page 2. -/
theorem fetchFilteredInvoices_page_window_witness :
    1 ≤ (2 : Int) ∧
    ((fetchFilteredInvoicesRows dbSample "" 2).length ≤ ITEMS_PER_PAGE ∧
     (fetchFilteredInvoicesRows dbSample "" 2).Pairwise (fun a b => b.date ≤ a.date) ∧
     fetchFilteredInvoicesRows dbSample "" 2 =
       ((invoicesMatchingSorted dbSample "").drop
         (((2 : Int) - 1).toNat * ITEMS_PER_PAGE)).take ITEMS_PER_PAGE) :=
  ⟨by decide, fetchFilteredInvoices_page_window dbSample "" 2 (by decide)⟩

/-- C2: on a successful database call, `fetchInvoicesPages` returns
exactly the ceiling of n / 6, where n is the number of joined invoice rows
matching the query under the same case-insensitive substring filter that
`fetchFilteredInvoices` uses. -/
theorem fetchInvoicesPages_ceil (db : Db) (q : String) :
    fetchInvoicesPages (Except.ok db : Except Unit Db) q =
      Except.ok ⌈((((invoiceJoinRows db).filter (invoicesWhere q)).length : ℚ)) / 6⌉ := by
  show Except.ok (fetchInvoicesPagesNum db q) = _
  have hw : invoicesPagesWhere = invoicesWhere := rfl
  unfold fetchInvoicesPagesNum fetchInvoicesPagesCount
  rw [hw]
  exact congrArg Except.ok (jsCeilDiv_six _)

/-- C4: every query function translates a database failure into its own
fixed user-facing message and never surfaces the original error (the
result error type is a fixed message string while the underlying error
type is arbitrary); for `fetchCardData`, the rejection of any one of its
three independent aggregate queries makes the whole operation fail with
the single generic card-data error, with no partial result. -/
theorem queryFunctions_error_translation :
    (∀ (ε : Type) (e : ε),
      fetchRevenue (Except.error e) = Except.error "Failed to fetch revenue data.") ∧
    (∀ (ε : Type) (e : ε),
      fetchLatestInvoices (Except.error e) =
        Except.error "Failed to fetch the latest invoices.") ∧
    (∀ (ε : Type) (e : ε) (q : String) (p : Int),
      fetchFilteredInvoices (Except.error e) q p =
        Except.error "Failed to fetch invoices.") ∧
    (∀ (ε : Type) (e : ε) (q : String),
      fetchInvoicesPages (Except.error e) q =
        Except.error "Failed to fetch total number of invoices.") ∧
    (∀ (ε : Type) (e : ε) (i : String),
      fetchInvoiceById (Except.error e) i =
        Except.error "Failed to fetch invoice.") ∧
    (∀ (ε : Type) (e : ε),
      fetchCustomers (Except.error e) =
        Except.error "Failed to fetch all customers.") ∧
    (∀ (ε : Type) (e : ε) (q : String),
      fetchFilteredCustomers (Except.error e) q =
        Except.error "Failed to fetch customer table.") ∧
    (∀ (ε : Type) (r1 r2 : Except ε Nat) (r3 : Except ε (Int × Int)),
      r1.isOk = false ∨ r2.isOk = false ∨ r3.isOk = false →
      fetchCardData r1 r2 r3 = Except.error "Failed to fetch card data.") := by
  refine ⟨fun ε e => rfl, fun ε e => rfl, fun ε e q p => rfl, fun ε e q => rfl,
    fun ε e i => rfl, fun ε e => rfl, fun ε e q => rfl, ?_⟩
  intro ε r1 r2 r3 h
  rcases r1 with e1 | a1 <;> rcases r2 with e2 | a2 <;> rcases r3 with e3 | ⟨p1, p2⟩ <;>
    first
      | rfl
      | simp [Except.isOk, Except.toBool] at h

/-- Witness for C4: the card-data clause applied to a concrete rejected
first query. -/
theorem queryFunctions_error_translation_witness :
    ((Except.error () : Except Unit Nat).isOk = false ∨
     (Except.ok 3 : Except Unit Nat).isOk = false ∨
     (Except.ok ((5 : Int), (7 : Int)) : Except Unit (Int × Int)).isOk = false) ∧
    fetchCardData (Except.error () : Except Unit Nat) (Except.ok 3)
      (Except.ok (5, 7)) = Except.error "Failed to fetch card data." :=
  ⟨by decide, queryFunctions_error_translation.2.2.2.2.2.2.2 Unit
    (Except.error ()) (Except.ok 3) (Except.ok (5, 7)) (by decide)⟩

/-- C7: `formatCurrency` is a total function on integers with no error
cases; on a non-negative amount of d dollars and c cents it renders the
dollar sign, the comma-grouped dollars and the two cent digits, a negative
amount adds a leading minus sign, and in particular 125000 minor units
render as the string for 1250 dollars. -/
theorem formatCurrency_usd :
    (∀ (d c : Nat), c < 100 →
      formatCurrency (100 * (d : Int) + (c : Int)) =
        "$" ++ groupThousands d ++ "." ++ padTo2 c) ∧
    (∀ n : Int, n < 0 → formatCurrency n = "-" ++ formatCurrency (-n)) ∧
    formatCurrency 125000 = "$1,250.00" := by
  have he : ("" : String) ++ "$" = "$" := rfl
  refine ⟨?_, ?_, by decide⟩
  · intro d c hc
    unfold formatCurrency
    rw [if_neg (by omega : ¬ (100 * (d : Int) + (c : Int) < 0))]
    have habs : (100 * (d : Int) + (c : Int)).natAbs = 100 * d + c := by omega
    rw [habs]
    have h1 : (100 * d + c) / 100 = d := by omega
    have h2 : (100 * d + c) % 100 = c := by omega
    rw [h1, h2, he]
  · intro n hn
    unfold formatCurrency
    rw [if_pos hn, if_neg (by omega : ¬ (-n < 0)), Int.natAbs_neg, he]
    simp only [String.append_assoc]

/-- Witness for C7: the dollars-and-cents clause at 12 dollars 50 cents
and the negative clause at -125000. -/
theorem formatCurrency_usd_witness :
    (50 : Nat) < 100 ∧
    formatCurrency (100 * ((12 : Nat) : Int) + ((50 : Nat) : Int)) =
      "$" ++ groupThousands 12 ++ "." ++ padTo2 50 ∧
    (-125000 : Int) < 0 ∧
    formatCurrency (-125000) = "-" ++ formatCurrency (-(-125000)) :=
  ⟨by decide, formatCurrency_usd.1 12 50 (by decide), by decide,
   formatCurrency_usd.2.1 (-125000) (by decide)⟩

/-- C8: every customer matching the filter with zero invoices still
appears in the result of `fetchFilteredCustomers`, with an invoice total
of 0 and both formatted sums equal to the zero-dollar string. -/
theorem fetchFilteredCustomers_zero_invoices (db : Db) (q : String) (c : Customer)
    (hc : c ∈ db.customers) (hm : customersWhere q c = true)
    (hz : db.invoices.filter (fun inv => inv.customer_id == c.id) = []) :
    ∃ row ∈ fetchFilteredCustomersRows db q,
      row.id = c.id ∧ row.total_invoices = 0 ∧
      row.total_pending = "$0.00" ∧ row.total_paid = "$0.00" := by
  refine ⟨formatCustomerRow (customersAggRow db c), ?_, rfl, ?_, ?_, ?_⟩
  · have h1 : c ∈ db.customers.filter (customersWhere q) :=
      List.mem_filter.2 ⟨hc, hm⟩
    have h2 : c ∈ (db.customers.filter (customersWhere q)).mergeSort customerNameAsc :=
      (List.mergeSort_perm _ _).mem_iff.2 h1
    exact List.mem_map_of_mem formatCustomerRow
      (List.mem_map_of_mem (customersAggRow db) h2)
  · show (db.invoices.filter (fun inv => inv.customer_id == c.id)).length = 0
    rw [hz]
    rfl
  · show formatCurrency
      (((db.invoices.filter (fun inv => inv.customer_id == c.id)).map
        (fun inv => if inv.status == "pending" then inv.amount else 0)).sum) = "$0.00"
    rw [hz]
    decide
  · show formatCurrency
      (((db.invoices.filter (fun inv => inv.customer_id == c.id)).map
        (fun inv => if inv.status == "paid" then inv.amount else 0)).sum) = "$0.00"
    rw [hz]
    decide

/-- Witness for C8: the theorem applied to the sample database, whose
second customer matches the empty query and has no invoices. -/
theorem fetchFilteredCustomers_zero_invoices_witness :
    (⟨"c2", "Bob", "bob", "img2"⟩ : Customer) ∈ dbSample.customers ∧
    customersWhere "" ⟨"c2", "Bob", "bob", "img2"⟩ = true ∧
    dbSample.invoices.filter (fun inv => inv.customer_id == "c2") = [] ∧
    ∃ row ∈ fetchFilteredCustomersRows dbSample "",
      row.id = "c2" ∧ row.total_invoices = 0 ∧
      row.total_pending = "$0.00" ∧ row.total_paid = "$0.00" :=
  ⟨by decide, by decide, by decide,
   fetchFilteredCustomers_zero_invoices dbSample "" ⟨"c2", "Bob", "bob", "img2"⟩
     (by decide) (by decide) (by decide)⟩

/-- C10: when the database call succeeds and no invoice row matches the
identifier, `fetchInvoiceById` returns the undefined first element of the
empty mapped array (modelled as `none`) rather than raising the invoice
error; the fixed error is produced exactly when the database call
fails. -/
theorem fetchInvoiceById_no_match :
    (∀ (ε : Type) (db : Db) (i : String),
      db.invoices.filter (fun inv => inv.id == i) = [] →
      fetchInvoiceById (Except.ok db : Except ε Db) i = Except.ok none) ∧
    (∀ (ε : Type) (e : ε) (i : String),
      fetchInvoiceById (Except.error e : Except ε Db) i =
        Except.error "Failed to fetch invoice.") := by
  constructor
  · intro ε db i h
    show Except.ok (fetchInvoiceByIdRows db i).head? = Except.ok none
    unfold fetchInvoiceByIdRows
    rw [h]
    rfl
  · intro ε e i
    rfl

/-- Witness for C10: the success clause applied to the sample database and
an identifier that matches no invoice. -/
theorem fetchInvoiceById_no_match_witness :
    dbSample.invoices.filter (fun inv => inv.id == "zzz") = [] ∧
    fetchInvoiceById (Except.ok dbSample : Except Unit Db) "zzz" = Except.ok none :=
  ⟨by decide, fetchInvoiceById_no_match.1 Unit dbSample "zzz" (by decide)⟩
